import Mathlib

/-!
Verification of the OAuth2 helper `google_auth.py` (Google Workspace skill).

The development shallowly embeds the pure content of the script:

* the pieces of `urllib.parse` the script uses (`urlencode` with its default
  `quote_plus` quoting, `parse_qs`, `urlparse` restricted to the origin-form
  request targets an HTTP server sees),
* the callback request handler `OAuthCallbackHandler.do_GET` as a function
  from server state and request target to new state and HTTP response,
* the waiting loop of `run_auth_flow` as a function consuming a list of
  incoming requests,
* the request builders and response handlers of `exchange_code` and
  `refresh_access_token` (the network transport is abstracted as an
  `HttpResponse` the provider returns; `json.loads` is embedded as a small
  JSON parser),
* the credential checks of `main` for the `login`, `refresh` and `token`
  subcommands.

Theorems then settle each specification claim against these definitions.
-/

namespace GoogleAuth

/-! ## Character and hex utilities -/

/-- Value of a hexadecimal digit, upper or lower case. -/
def hexVal? (c : Char) : Option Nat :=
  if '0' ≤ c ∧ c ≤ '9' then some (c.toNat - '0'.toNat)
  else if 'a' ≤ c ∧ c ≤ 'f' then some (c.toNat - 'a'.toNat + 10)
  else if 'A' ≤ c ∧ c ≤ 'F' then some (c.toNat - 'A'.toNat + 10)
  else none

/-- Upper-case hexadecimal digit for a value below 16 (as `urllib.parse.quote`
emits). -/
def hexDigitUpper (n : Nat) : Char :=
  if n < 10 then Char.ofNat ('0'.toNat + n)
  else Char.ofNat ('A'.toNat + n - 10)

/-- Split a character list at every occurrence of `sep`, like Python
`str.split(sep)`: the empty list yields `[[]]`. -/
def splitAll (sep : Char) : List Char → List (List Char)
  | [] => [[]]
  | c :: rest =>
    let r := splitAll sep rest
    if c = sep then [] :: r
    else
      match r with
      | [] => [[c]]
      | h :: t => (c :: h) :: t

/-- Split at the first occurrence of `sep`: returns the part before it and,
when `sep` occurs, the part after it, like Python `str.split(sep, 1)` /
`str.partition(sep)`. -/
def splitOnFirstChar (sep : Char) : List Char → List Char × Option (List Char)
  | [] => ([], none)
  | c :: rest =>
    if c = sep then ([], some rest)
    else
      let r := splitOnFirstChar sep rest
      (c :: r.1, r.2)

/-! ## `urllib.parse.quote_plus` / `urlencode` -/

/-- Characters `urllib.parse` never quotes (`_ALWAYS_SAFE`): ASCII letters,
digits, and `_.-~`.  (`urlencode` calls `quote_plus` with `safe=''`.) -/
def alwaysSafe (c : Char) : Bool :=
  c.isAlpha || c.isDigit || c = '_' || c = '.' || c = '-' || c = '~'

/-- UTF-8 encoding of a code point, as Python encodes non-safe characters
before percent-quoting them. -/
def utf8Bytes (n : Nat) : List Nat :=
  if n < 0x80 then [n]
  else if n < 0x800 then [0xC0 + n / 64, 0x80 + n % 64]
  else if n < 0x10000 then [0xE0 + n / 4096, 0x80 + n / 64 % 64, 0x80 + n % 64]
  else [0xF0 + n / 262144, 0x80 + n / 4096 % 64, 0x80 + n / 64 % 64, 0x80 + n % 64]

/-- Percent-escape of one byte, e.g. `%3A`. -/
def percentByte (b : Nat) : List Char :=
  ['%', hexDigitUpper (b / 16), hexDigitUpper (b % 16)]

/-- `urllib.parse.quote_plus` with `safe=''` (the form `urlencode` uses): safe
characters pass through, a space becomes `+`, everything else is
percent-escaped bytewise over its UTF-8 encoding. -/
def quote_plus (s : String) : String :=
  String.mk (s.data.flatMap fun c =>
    if alwaysSafe c then [c]
    else if c = ' ' then ['+']
    else (utf8Bytes c.toNat).flatMap percentByte)

/-- `urllib.parse.urlencode` over an association list (a Python dict preserves
insertion order, so the embedding keeps the list order). -/
def urlencode (params : List (String × String)) : String :=
  String.intercalate "&" (params.map fun p => quote_plus p.1 ++ "=" ++ quote_plus p.2)

/-! ## `urllib.parse.unquote_plus` / `parse_qs` -/

/-- Percent-decoding as in `urllib.parse.unquote`: a `%` followed by two hex
digits becomes the byte's character, an invalid escape is left literal.
Bytes are decoded individually to their code points; multi-byte UTF-8 runs
(which Python would decode jointly and no claim exercises, every input here
being ASCII) are out of scope of this embedding. -/
def unquoteChars : List Char → List Char
  | [] => []
  | '%' :: a :: b :: rest =>
    match hexVal? a, hexVal? b with
    | some ha, some hb => Char.ofNat (16 * ha + hb) :: unquoteChars rest
    | _, _ => '%' :: unquoteChars (a :: b :: rest)
  | c :: rest => c :: unquoteChars rest

/-- `unquote_plus` on character lists: `parse_qsl` first replaces `+` by a
space, then percent-decodes. -/
def unquote_plus_chars (l : List Char) : List Char :=
  unquoteChars (l.map fun c => if c = '+' then ' ' else c)

/-- `urllib.parse.parse_qsl` with its defaults (`keep_blank_values=False`,
separator `&`): empty fields are skipped, a field without `=` is skipped, a
field with an empty value is skipped, names and values are plus-and-percent
decoded. -/
def parse_qsl (qs : String) : List (String × String) :=
  (splitAll '&' qs.data).filterMap fun field =>
    if field = [] then none
    else
      match splitOnFirstChar '=' field with
      | (_, none) => none
      | (name, some value) =>
        if value = [] then none
        else some (String.mk (unquote_plus_chars name), String.mk (unquote_plus_chars value))

/-- Group one decoded pair into the `parse_qs` accumulator, appending to an
existing key's value list. -/
def addParam (ps : List (String × List String)) (k v : String) : List (String × List String) :=
  match ps with
  | [] => [(k, [v])]
  | p :: rest => if p.1 = k then (p.1, p.2 ++ [v]) :: rest else p :: addParam rest k v

/-- `urllib.parse.parse_qs`: the pairs of `parse_qsl` grouped by name into
lists (a dict from name to list of values, in first-occurrence order). -/
def parse_qs (qs : String) : List (String × List String) :=
  (parse_qsl qs).foldl (fun acc kv => addParam acc kv.1 kv.2) []

/-- Dict lookup on the `parse_qs` result (`params["k"]` / `"k" in params`). -/
def getParam (ps : List (String × List String)) (k : String) : Option (List String) :=
  match ps.find? (fun p => p.1 == k) with
  | some p => some p.2
  | none => none

/-! ## `urllib.parse.urlparse` on request targets -/

/-- The `;params` suffix `urlparse` strips from the last path segment. -/
def stripPathParams (l : List Char) : List Char :=
  let segs := splitAll '/' l
  match segs.getLast? with
  | none => l
  | some lastSeg =>
    List.intercalate ['/'] (segs.dropLast ++ [lastSeg.takeWhile (fun c => c ≠ ';')])

/-- `urllib.parse.urlparse` restricted to the origin-form request targets a
`BaseHTTPRequestHandler` sees in `self.path` (a path starting with `/`, so no
scheme or netloc arises): the fragment starts at the first `#`, the query at
the first `?` before it, and `;params` are stripped from the last path
segment.  Returns `(path, query)`. -/
def urlparse_path_query (url : String) : String × String :=
  let noFrag := (splitOnFirstChar '#' url.data).1
  let pq := splitOnFirstChar '?' noFrag
  (String.mk (stripPathParams pq.1), String.mk (pq.2.getD []))

/-! ## Configuration of the script -/

/-- Scopes for Drive, Calendar, and Meet (`SCOPES`, google_auth.py lines
34-38). -/
def SCOPES : List String :=
  ["https://www.googleapis.com/auth/drive.readonly",
   "https://www.googleapis.com/auth/calendar.readonly",
   "https://www.googleapis.com/auth/calendar.events.readonly"]

/-- `REDIRECT_PORT` (line 40). -/
def REDIRECT_PORT : Nat := 8089

/-- `REDIRECT_URI` (line 41). -/
def REDIRECT_URI : String := "http://localhost:" ++ toString REDIRECT_PORT ++ "/callback"

/-- `get_auth_url` (lines 82-92): the authorization URL is the provider base
plus the urlencoded parameter dict, in insertion order. -/
def get_auth_url (client_id : String) : String :=
  "https://accounts.google.com/o/oauth2/v2/auth?" ++
    urlencode
      [("client_id", client_id),
       ("redirect_uri", REDIRECT_URI),
       ("response_type", "code"),
       ("scope", String.intercalate " " SCOPES),
       ("access_type", "offline"),
       ("prompt", "consent")]

/-! ## Callback Listener: `OAuthCallbackHandler.do_GET` (lines 44-79)

The handler is a function from the current server state (the `auth_code` /
`auth_error` fields `run_auth_flow` installs on the server object) and the
request target `self.path` to the updated state and the HTTP response
written back.  `log_message` is overridden to suppress logging, so the
response is the only output. -/

/-- The two result fields `run_auth_flow` installs on the server object
(lines 150-151). -/
structure ServerState where
  auth_code : Option String
  auth_error : Option String
deriving DecidableEq

/-- Initial server state: `server.auth_code = None; server.auth_error = None`. -/
def initState : ServerState := { auth_code := none, auth_error := none }

/-- The response the handler writes: status from `send_response`, the
`Content-Type` header when one is sent, and the body bytes written. -/
structure HttpResp where
  status : Nat
  contentType : Option String
  body : String
deriving DecidableEq

/-- The static confirmation page of the success branch (lines 62-67),
whitespace included. -/
def successHtml : String :=
  "\n                    <html><body style=\"font-family: sans-serif; text-align: center; padding: 50px;\">\n                    <h1>Authorization Successful!</h1>\n                    <p>You can close this window and return to the terminal.</p>\n                    </body></html>\n                "

/-- The error page of the error branch (line 73), an f-string around the
recorded reason. -/
def errorHtml (reason : String) : String :=
  "<html><body><h1>Error</h1><p>" ++ reason ++ "</p></body></html>"

/-- `OAuthCallbackHandler.do_GET` (lines 50-79). -/
def do_GET (st : ServerState) (reqPath : String) : ServerState × HttpResp :=
  let pq := urlparse_path_query reqPath
  if pq.1 = "/callback" then
    let params := parse_qs pq.2
    match getParam params "code" with
    | some vs =>
      ({ st with auth_code := some (vs.headD "") },
       { status := 200, contentType := some "text/html", body := successHtml })
    | none =>
      match getParam params "error" with
      | some vs =>
        let reason := ((getParam params "error_description").getD vs).headD ""
        ({ st with auth_error := some reason },
         { status := 400, contentType := some "text/html", body := errorHtml reason })
      | none => (st, { status := 400, contentType := none, body := "" })
  else (st, { status := 404, contentType := none, body := "" })

/-! ## The waiting loop of `run_auth_flow` (lines 146-168) -/

/-- The loop guard `server.auth_code is None and server.auth_error is None`
(line 161). -/
def waiting (st : ServerState) : Bool :=
  st.auth_code.isNone && st.auth_error.isNone

/-- The waiting loop, driven by the list of requests that arrive:
`while waiting: server.handle_request()`.  Returns the final state and the
requests never accepted, or `none` when the supplied requests are exhausted
while still waiting (the real loop would block for the next request). -/
def authLoop : ServerState → List String → Option (ServerState × List String)
  | st, [] => if waiting st then none else some (st, [])
  | st, r :: rest =>
    if waiting st then authLoop (do_GET st r).1 rest else some (st, r :: rest)

/-- The `AuthorizationResult` of the data model: what the orchestrator reads
off the final server state. -/
inductive AuthorizationResult where
  | Success (code : String)
  | Failure (reason : String)
deriving DecidableEq

/-- Python truthiness of an optional string (`None` and `""` are falsy), as
tested by `if server.auth_error:` and `if not all([...])`. -/
def truthy : Option String → Bool
  | none => false
  | some s => s ≠ ""

/-- Reading the result from the post-loop state (lines 166-172): a truthy
`auth_error` exits with the reason, otherwise the code is exchanged. -/
def resultOfState (st : ServerState) : AuthorizationResult :=
  if truthy st.auth_error then .Failure (st.auth_error.getD "")
  else .Success (st.auth_code.getD "")

/-- The observable outcome of the listener part of `run_auth_flow`: the
result produced, the requests that arrived after the listener stopped
accepting, and that `server.server_close()` ran (line 164). -/
structure FlowTrace where
  result : AuthorizationResult
  unconsumed : List String
  serverClosed : Bool
deriving DecidableEq

/-- `run_auth_flow` restricted to its listener lifecycle (lines 149-168):
run the waiting loop on the incoming requests, then close the server and
read off the result.  `none` models the indefinite block when no deciding
request ever arrives. -/
def run_auth_flow_listener (reqs : List String) : Option FlowTrace :=
  match authLoop initState reqs with
  | none => none
  | some (st, rest) =>
    some { result := resultOfState st, unconsumed := rest, serverClosed := true }

/-! ## `json.loads` -/

/-- JSON values.  Numeric literals are modelled as integers; fractional and
exponent parts, which no response in this development carries, are out of
scope of the embedding. -/
inductive Json where
  | null
  | bool (b : Bool)
  | num (n : Int)
  | str (s : String)
  | arr (elems : List Json)
  | obj (fields : List (String × Json))

/-- JSON whitespace skip. -/
def skipWs (l : List Char) : List Char :=
  l.dropWhile fun c => c = ' ' || c = '\t' || c = '\n' || c = '\r'

/-- Single-character JSON string escapes. -/
def escChar? (c : Char) : Option Char :=
  if c = '"' then some '"'
  else if c = '\\' then some '\\'
  else if c = '/' then some '/'
  else if c = 'b' then some (Char.ofNat 8)
  else if c = 'f' then some (Char.ofNat 12)
  else if c = 'n' then some '\n'
  else if c = 'r' then some '\r'
  else if c = 't' then some '\t'
  else none

/-- Body of a JSON string after the opening quote: returns the decoded
content and the input after the closing quote. -/
def parseJStringBody : List Char → Option (List Char × List Char)
  | [] => none
  | '"' :: rest => some ([], rest)
  | '\\' :: rest =>
    match rest with
    | 'u' :: h1 :: h2 :: h3 :: h4 :: rest2 =>
      match hexVal? h1, hexVal? h2, hexVal? h3, hexVal? h4 with
      | some a, some b, some c, some d =>
        (parseJStringBody rest2).map fun p =>
          (Char.ofNat (4096 * a + 256 * b + 16 * c + d) :: p.1, p.2)
      | _, _, _, _ => none
    | e :: rest2 =>
      match escChar? e with
      | some c => (parseJStringBody rest2).map fun p => (c :: p.1, p.2)
      | none => none
    | [] => none
  | c :: rest => (parseJStringBody rest).map fun p => (c :: p.1, p.2)

/-- Decimal value of a digit run. -/
def digitsVal (l : List Char) : Nat :=
  l.foldl (fun acc c => 10 * acc + (c.toNat - '0'.toNat)) 0

/-- A JSON integer literal: optional minus sign, then at least one digit. -/
def parseJNumber (l : List Char) : Option (Json × List Char) :=
  match l with
  | '-' :: rest =>
    let digs := rest.takeWhile Char.isDigit
    if digs = [] then none
    else some (.num (-(digitsVal digs : Int)), rest.dropWhile Char.isDigit)
  | _ =>
    let digs := l.takeWhile Char.isDigit
    if digs = [] then none
    else some (.num (digitsVal digs : Int), l.dropWhile Char.isDigit)

mutual

/-- One JSON value, fuel-bounded (the nesting depth of a document is below
its character count, so `json_loads` supplies ample fuel). -/
def parseJValue : Nat → List Char → Option (Json × List Char)
  | 0, _ => none
  | fuel + 1, input =>
    match skipWs input with
    | 'n' :: 'u' :: 'l' :: 'l' :: rest => some (.null, rest)
    | 't' :: 'r' :: 'u' :: 'e' :: rest => some (.bool true, rest)
    | 'f' :: 'a' :: 'l' :: 's' :: 'e' :: rest => some (.bool false, rest)
    | '"' :: rest => (parseJStringBody rest).map fun p => (.str (String.mk p.1), p.2)
    | '[' :: rest =>
      (match skipWs rest with
       | ']' :: rest2 => some (.arr [], rest2)
       | rest2 => (parseJElems fuel rest2).map fun p => (.arr p.1, p.2))
    | '\x7b' :: rest =>
      (match skipWs rest with
       | '\x7d' :: rest2 => some (.obj [], rest2)
       | rest2 => (parseJMembers fuel rest2).map fun p => (.obj p.1, p.2))
    | rest => parseJNumber rest

/-- Comma-separated array elements up to the closing bracket. -/
def parseJElems : Nat → List Char → Option (List Json × List Char)
  | 0, _ => none
  | fuel + 1, input =>
    match parseJValue fuel input with
    | none => none
    | some (v, rest) =>
      match skipWs rest with
      | ',' :: rest2 => (parseJElems fuel rest2).map fun p => (v :: p.1, p.2)
      | ']' :: rest2 => some ([v], rest2)
      | _ => none

/-- Comma-separated object members up to the closing brace. -/
def parseJMembers : Nat → List Char → Option (List (String × Json) × List Char)
  | 0, _ => none
  | fuel + 1, input =>
    match skipWs input with
    | '"' :: rest =>
      (match parseJStringBody rest with
       | none => none
       | some (k, rest2) =>
         match skipWs rest2 with
         | ':' :: rest3 =>
           (match parseJValue fuel rest3 with
            | none => none
            | some (v, rest4) =>
              match skipWs rest4 with
              | ',' :: rest5 => (parseJMembers fuel rest5).map fun p => ((String.mk k, v) :: p.1, p.2)
              | '\x7d' :: rest5 => some ([(String.mk k, v)], rest5)
              | _ => none)
         | _ => none)
    | _ => none

end

/-- `json.loads`: parse one document with no trailing input; `none` models a
raised `json.JSONDecodeError`. -/
def json_loads (s : String) : Option Json :=
  match parseJValue (2 * s.length + 2) s.data with
  | some (v, rest) => if skipWs rest = [] then some v else none
  | none => none

/-- Dict lookup on a parsed JSON object, in Python key order
(`tokens["k"]` / `"k" in tokens`). -/
def lookupField (fields : List (String × Json)) (k : String) : Option Json :=
  match fields.find? (fun p => p.1 == k) with
  | some p => some p.2
  | none => none

/-! ## Token Exchanger: `exchange_code` (lines 95-118) and
`refresh_access_token` (lines 121-143) -/

/-- The request `urllib.request.Request(...)` is built with: URL, the form
fields whose `urlencode` is the body, the content type header, and the
method. -/
structure HttpRequest where
  url : String
  formData : List (String × String)
  contentType : String
  method : String
deriving DecidableEq

/-- An HTTP response from the token endpoint, as the transport delivers it:
status code and body text. -/
structure HttpResponse where
  status : Nat
  body : String
deriving DecidableEq

/-- `urllib.error.HTTPError`: carries the response status (`e.code`) and its
body (`e.read()`). -/
structure HTTPErrorE where
  code : Nat
  body : String
deriving DecidableEq

/-- `urllib.request.urlopen` on a completed exchange: a 2xx response is
returned, any other status raises `HTTPError` carrying the status and body.
(Redirect following, a transport concern no claim exercises, is not
modelled.) -/
def urlopen_result (resp : HttpResponse) : Except HTTPErrorE String :=
  if 200 ≤ resp.status ∧ resp.status < 300 then .ok resp.body
  else .error { code := resp.status, body := resp.body }

/-- Outcome of one token-endpoint call as the script observes it. -/
inductive TokenCallOutcome where
  | ok (tokens : Json)
  | exited (stderrLine : String) (exitCode : Nat)
  | uncaughtJsonError

/-- The shared `try/except HTTPError` body of `exchange_code` (lines
112-118) and `refresh_access_token` (lines 137-143), which are textually
identical: on success parse the body with `json.loads`; on `HTTPError`
print `Error: ` and the error body to standard error and `sys.exit(1)`. -/
def token_post_handle (resp : HttpResponse) : TokenCallOutcome :=
  match urlopen_result resp with
  | .ok body =>
    match json_loads body with
    | some j => .ok j
    | none => .uncaughtJsonError
  | .error e => .exited ("Error: " ++ e.body) 1

/-- The request `exchange_code` builds (lines 95-110). -/
def exchange_code_request (client_id client_secret code : String) : HttpRequest :=
  { url := "https://oauth2.googleapis.com/token"
    formData :=
      [("client_id", client_id),
       ("client_secret", client_secret),
       ("code", code),
       ("grant_type", "authorization_code"),
       ("redirect_uri", REDIRECT_URI)]
    contentType := "application/x-www-form-urlencoded"
    method := "POST" }

/-- How `exchange_code` treats the response (lines 112-118). -/
def exchange_code_response (resp : HttpResponse) : TokenCallOutcome :=
  token_post_handle resp

/-- The request `refresh_access_token` builds (lines 121-135). -/
def refresh_access_token_request (client_id client_secret refresh_token : String) : HttpRequest :=
  { url := "https://oauth2.googleapis.com/token"
    formData :=
      [("client_id", client_id),
       ("client_secret", client_secret),
       ("refresh_token", refresh_token),
       ("grant_type", "refresh_token")]
    contentType := "application/x-www-form-urlencoded"
    method := "POST" }

/-- How `refresh_access_token` treats the response (lines 137-143). -/
def refresh_access_token_response (resp : HttpResponse) : TokenCallOutcome :=
  token_post_handle resp

/-- The `TokenSet` of the data model, read off a provider JSON object: each
field is the object member when present. -/
structure TokenSet where
  access_token : Option Json
  refresh_token : Option Json
  expires_in : Option Json
  token_type : Option Json

/-- View a parsed token response as a `TokenSet` (absent members are
`none`). -/
def tokenSetView (j : Json) : Option TokenSet :=
  match j with
  | .obj fields =>
    some { access_token := lookupField fields "access_token"
           refresh_token := lookupField fields "refresh_token"
           expires_in := lookupField fields "expires_in"
           token_type := lookupField fields "token_type" }
  | _ => none

/-! ## `main` (lines 177-232): subcommands and credential checks -/

/-- The three subcommands. -/
inductive Command where
  | login
  | refresh
  | token
deriving DecidableEq

/-- `argparse` resolution of one credential: the flag value when the flag is
given, otherwise `os.environ.get(VAR)` (possibly absent). -/
def resolveArg (flag envVar : Option String) : Option String :=
  match flag with
  | some v => some v
  | none => envVar

/-- Where `main` goes before any network traffic: either the usage-error
branch (message to standard error, `sys.exit(1)`), or on into the network
phase of the subcommand. -/
inductive MainPreNet where
  | usageError (stderrLine : String) (exitCode : Nat)
  | proceed (cmd : Command)
deriving DecidableEq

/-- The credential checks of `main` (lines 200-204, 215-218, 222-225):
`if not all([...])` over the resolved credentials, with Python string
truthiness. -/
def main_guard (cmd : Command)
    (flagId flagSecret flagRefresh envId envSecret envRefresh : Option String) :
    MainPreNet :=
  let cid := resolveArg flagId envId
  let csec := resolveArg flagSecret envSecret
  let crt := resolveArg flagRefresh envRefresh
  match cmd with
  | .login =>
    if truthy cid && truthy csec then .proceed .login
    else .usageError "Error: --client-id and --client-secret required" 1
  | .refresh =>
    if truthy cid && truthy csec && truthy crt then .proceed .refresh
    else .usageError "Error: client-id, client-secret, and refresh-token required" 1
  | .token =>
    if truthy cid && truthy csec && truthy crt then .proceed .token
    else .usageError "Error: client-id, client-secret, and refresh-token required" 1

/-- What the `token` subcommand does with the endpoint response (lines
226-228): `tokens["access_token"]` is printed, an unguarded dict index. -/
inductive TokenCmdOutcome where
  | exchangeExit (stderrLine : String) (exitCode : Nat)
  | printed (accessToken : Json)
  | uncaughtKeyError (key : String)
  | uncaughtTypeError
  | uncaughtJsonError

/-- The network phase of the `token` subcommand (lines 226-228), after the
credential check passed: call `refresh_access_token`, then print
`tokens["access_token"]`.  A missing key raises `KeyError`; a non-dict
result raises `TypeError`; both are uncaught. -/
def token_command_net (resp : HttpResponse) : TokenCmdOutcome :=
  match refresh_access_token_response resp with
  | .exited s c => .exchangeExit s c
  | .uncaughtJsonError => .uncaughtJsonError
  | .ok tokens =>
    match tokens with
    | .obj fields =>
      match lookupField fields "access_token" with
      | some v => .printed v
      | none => .uncaughtKeyError "access_token"
    | _ => .uncaughtTypeError

/-! ## Auxiliary predicates for the statements -/

/-- Boolean substring test on character lists (used to state what the
standard-error output does not contain). -/
def listInfix (needle : List Char) : List Char → Bool
  | [] => needle.isEmpty
  | c :: t => needle.isPrefixOf (c :: t) || listInfix needle t

/-- Well-formedness `parse_qs` guarantees: every recorded parameter has a
non-empty value list of non-empty strings. -/
def GoodParams (ps : List (String × List String)) : Prop :=
  ∀ p ∈ ps, p.2 ≠ [] ∧ ∀ v ∈ p.2, v ≠ ""

/-! ## Lemmas about the query-string machinery -/

theorem unquoteChars_cons_ne_nil (c : Char) (l : List Char) :
    unquoteChars (c :: l) ≠ [] := by
  rw [unquoteChars.eq_def]
  split
  · simp_all
  · split <;> simp
  · simp

theorem unquote_plus_chars_ne_nil (l : List Char) (h : l ≠ []) :
    unquote_plus_chars l ≠ [] := by
  match l with
  | [] => exact absurd rfl h
  | c :: t =>
    show unquoteChars (((c :: t).map _)) ≠ []
    rw [List.map_cons]
    exact unquoteChars_cons_ne_nil _ _

theorem string_mk_ne_empty (l : List Char) (h : l ≠ []) : String.mk l ≠ "" := by
  intro hcon
  have hd : (String.mk l).data = ("" : String).data := by rw [hcon]
  exact h hd

theorem parse_qsl_value_ne (qs : String) : ∀ kv ∈ parse_qsl qs, kv.2 ≠ "" := by
  intro kv hkv
  unfold parse_qsl at hkv
  rw [List.mem_filterMap] at hkv
  obtain ⟨field, _, hf⟩ := hkv
  by_cases h0 : field = []
  · simp [h0] at hf
  · rw [if_neg h0] at hf
    rcases hsp : splitOnFirstChar '=' field with ⟨name, value?⟩
    rw [hsp] at hf
    match value? with
    | none => simp at hf
    | some value =>
      by_cases hv : value = []
      · simp [hv] at hf
      · simp only [if_neg hv, Option.some.injEq] at hf
        rw [← hf]
        exact string_mk_ne_empty _ (unquote_plus_chars_ne_nil _ hv)

theorem addParam_good (ps : List (String × List String)) (k v : String)
    (hps : GoodParams ps) (hv : v ≠ "") : GoodParams (addParam ps k v) := by
  induction ps with
  | nil =>
    intro p hp
    simp [addParam] at hp
    subst hp
    exact ⟨by simp, by simp [hv]⟩
  | cons q rest ih =>
    intro p hp
    unfold addParam at hp
    by_cases hk : q.1 = k
    · rw [if_pos hk] at hp
      rcases List.mem_cons.mp hp with hp | hp
      · subst hp
        refine ⟨by simp, ?_⟩
        intro x hx
        rcases List.mem_append.mp hx with hx | hx
        · exact (hps q (List.mem_cons_self _ _)).2 x hx
        · rw [List.mem_singleton.mp hx]; exact hv
      · exact hps p (List.mem_cons_of_mem _ hp)
    · rw [if_neg hk] at hp
      rcases List.mem_cons.mp hp with hp | hp
      · subst hp; exact hps p (List.mem_cons_self _ _)
      · exact ih (fun x hx => hps x (List.mem_cons_of_mem _ hx)) p hp

theorem parse_qs_good (qs : String) : GoodParams (parse_qs qs) := by
  unfold parse_qs
  have H : ∀ (kvs : List (String × String)), (∀ kv ∈ kvs, kv.2 ≠ "") →
      ∀ acc, GoodParams acc →
      GoodParams (kvs.foldl (fun acc kv => addParam acc kv.1 kv.2) acc) := by
    intro kvs
    induction kvs with
    | nil => intro _ acc hacc; exact hacc
    | cons kv rest ih =>
      intro hall acc hacc
      simp only [List.foldl_cons]
      exact ih (fun x hx => hall x (List.mem_cons_of_mem _ hx)) _
        (addParam_good _ _ _ hacc (hall kv (List.mem_cons_self _ _)))
  exact H _ (parse_qsl_value_ne qs) [] (by intro p hp; simp at hp)

theorem getParam_some (ps : List (String × List String)) (k : String) (vs : List String)
    (h : getParam ps k = some vs) : ∃ p ∈ ps, p.2 = vs := by
  unfold getParam at h
  rcases hf : ps.find? (fun p => p.1 == k) with _ | p
  · rw [hf] at h; simp at h
  · rw [hf] at h
    simp only [Option.some.injEq] at h
    exact ⟨p, List.mem_of_find?_eq_some hf, h⟩

theorem getParam_parse_qs_good (qs k : String) (vs : List String)
    (h : getParam (parse_qs qs) k = some vs) : vs ≠ [] ∧ ∀ v ∈ vs, v ≠ "" := by
  obtain ⟨p, hp, hpv⟩ := getParam_some _ _ _ h
  exact hpv ▸ parse_qs_good qs p hp

/-! ## Lemmas about `do_GET` and the waiting loop -/

theorem do_GET_code (st : ServerState) (req v : String) (vs : List String)
    (hpath : (urlparse_path_query req).1 = "/callback")
    (hcode : getParam (parse_qs (urlparse_path_query req).2) "code" = some (v :: vs)) :
    do_GET st req =
      ({ st with auth_code := some v },
       { status := 200, contentType := some "text/html", body := successHtml }) := by
  simp only [do_GET]
  rw [hpath, hcode]
  simp

theorem do_GET_error (st : ServerState) (req : String) (vs : List String)
    (hpath : (urlparse_path_query req).1 = "/callback")
    (hnocode : getParam (parse_qs (urlparse_path_query req).2) "code" = none)
    (herr : getParam (parse_qs (urlparse_path_query req).2) "error" = some vs) :
    do_GET st req =
      ({ st with auth_error := some (((getParam (parse_qs (urlparse_path_query req).2) "error_description").getD vs).headD "") },
       { status := 400, contentType := some "text/html",
         body := errorHtml (((getParam (parse_qs (urlparse_path_query req).2) "error_description").getD vs).headD "") }) := by
  simp only [do_GET]
  rw [hpath, hnocode, herr]
  simp

theorem do_GET_other_path (st : ServerState) (req : String)
    (hpath : (urlparse_path_query req).1 ≠ "/callback") :
    do_GET st req = (st, { status := 404, contentType := none, body := "" }) := by
  simp only [do_GET]
  rw [if_neg hpath]

theorem do_GET_no_code_no_error (st : ServerState) (req : String)
    (hpath : (urlparse_path_query req).1 = "/callback")
    (hnocode : getParam (parse_qs (urlparse_path_query req).2) "code" = none)
    (hnoerr : getParam (parse_qs (urlparse_path_query req).2) "error" = none) :
    do_GET st req = (st, { status := 400, contentType := none, body := "" }) := by
  simp only [do_GET]
  rw [hpath, hnocode, hnoerr]
  simp

theorem do_GET_state_cases (st : ServerState) (req : String) :
    (do_GET st req).1 = st
    ∨ (∃ v, (do_GET st req).1 = { st with auth_code := some v })
    ∨ (∃ e, (do_GET st req).1 = { st with auth_error := some e }) := by
  simp only [do_GET]
  split
  · split
    · right; left; exact ⟨_, rfl⟩
    · split
      · right; right; exact ⟨_, rfl⟩
      · left; rfl
  · left; rfl

theorem authLoop_not_waiting (st : ServerState) (h : waiting st = false)
    (reqs : List String) : authLoop st reqs = some (st, reqs) := by
  cases reqs with
  | nil => simp [authLoop, h]
  | cons r rest => simp [authLoop, h]

theorem authLoop_cons_waiting (st : ServerState) (r : String) (rest : List String)
    (h : waiting st = true) :
    authLoop st (r :: rest) = authLoop (do_GET st r).1 rest := by
  simp [authLoop, h]

theorem authLoop_decomp : ∀ (reqs : List String) (st : ServerState) (rest : List String),
    authLoop initState reqs = some (st, rest) →
    ((∃ v, st = { auth_code := some v, auth_error := none })
      ∨ (∃ e, st = { auth_code := none, auth_error := some e }))
    ∧ ∃ pre d, reqs = pre ++ d :: rest
        ∧ (∀ x ∈ pre, (do_GET initState x).1 = initState)
        ∧ (do_GET initState d).1 = st := by
  intro reqs
  induction reqs with
  | nil =>
    intro st rest h
    simp [authLoop, waiting, initState] at h
  | cons r rest0 ih =>
    intro st rest h
    rw [authLoop_cons_waiting initState r rest0 rfl] at h
    rcases do_GET_state_cases initState r with hsame | ⟨v, hv⟩ | ⟨e, he⟩
    · rw [hsame] at h
      obtain ⟨hone, pre, d, hsplit, hpre, hd⟩ := ih st rest h
      refine ⟨hone, r :: pre, d, by simp [hsplit], ?_, hd⟩
      intro x hx
      rcases List.mem_cons.mp hx with hx | hx
      · rw [hx]; exact hsame
      · exact hpre x hx
    · rw [hv, authLoop_not_waiting ({ initState with auth_code := some v }) (by rfl) rest0] at h
      simp only [Option.some.injEq, Prod.mk.injEq] at h
      obtain ⟨hst, hrest⟩ := h
      subst hrest
      exact ⟨Or.inl ⟨v, hst.symm⟩, [], r, rfl, by simp, by rw [hv, hst]⟩
    · rw [he, authLoop_not_waiting ({ initState with auth_error := some e }) (by rfl) rest0] at h
      simp only [Option.some.injEq, Prod.mk.injEq] at h
      obtain ⟨hst, hrest⟩ := h
      subst hrest
      exact ⟨Or.inr ⟨e, hst.symm⟩, [], r, rfl, by simp, by rw [he, hst]⟩

/-- C1: for every login attempt the waiting loop serves requests until the
first one that records an authorization code or error; the final state has
exactly one result field set, every earlier request left the state
untouched, the requests after the deciding one are never accepted, and the
server is closed — so exactly one AuthorizationResult is produced. -/
theorem listener_produces_exactly_one_result (reqs : List String) (st : ServerState)
    (rest : List String) (h : authLoop initState reqs = some (st, rest)) :
    ((∃ v, st = { auth_code := some v, auth_error := none })
      ∨ (∃ e, st = { auth_code := none, auth_error := some e }))
    ∧ (∃ pre d, reqs = pre ++ d :: rest
        ∧ (∀ x ∈ pre, (do_GET initState x).1 = initState)
        ∧ (do_GET initState d).1 = st)
    ∧ run_auth_flow_listener reqs =
        some { result := resultOfState st, unconsumed := rest, serverClosed := true } := by
  obtain ⟨hone, hdec⟩ := authLoop_decomp reqs st rest h
  exact ⟨hone, hdec, by simp [run_auth_flow_listener, h]⟩

/-- Witness for C1 at a concrete trace: a favicon probe, then the real
callback, then a stray duplicate that is never accepted. -/
theorem listener_produces_exactly_one_result_witness :
    authLoop initState ["/favicon.ico", "/callback?code=abc123", "/callback?code=zzz"] =
      some ({ auth_code := some "abc123", auth_error := none }, ["/callback?code=zzz"])
    ∧ (((∃ v, (ServerState.mk (some "abc123") none) = { auth_code := some v, auth_error := none })
        ∨ (∃ e, (ServerState.mk (some "abc123") none) = { auth_code := none, auth_error := some e }))
      ∧ (∃ pre d, ["/favicon.ico", "/callback?code=abc123", "/callback?code=zzz"] = pre ++ d :: ["/callback?code=zzz"]
          ∧ (∀ x ∈ pre, (do_GET initState x).1 = initState)
          ∧ (do_GET initState d).1 = ServerState.mk (some "abc123") none)
      ∧ run_auth_flow_listener ["/favicon.ico", "/callback?code=abc123", "/callback?code=zzz"] =
          some { result := resultOfState (ServerState.mk (some "abc123") none),
                 unconsumed := ["/callback?code=zzz"], serverClosed := true }) :=
  ⟨by decide, listener_produces_exactly_one_result _ _ _ (by decide)⟩

/-- C4: a request on /callback whose query carries a code parameter records
Success with exactly that (first) code value, is answered HTTP 200 with the
static confirmation page, and the listener stops accepting requests. -/
theorem callback_code_success (req v : String) (vs reqsAfter : List String)
    (hpath : (urlparse_path_query req).1 = "/callback")
    (hcode : getParam (parse_qs (urlparse_path_query req).2) "code" = some (v :: vs)) :
    do_GET initState req =
      ({ auth_code := some v, auth_error := none },
       { status := 200, contentType := some "text/html", body := successHtml })
    ∧ authLoop initState (req :: reqsAfter) =
        some ({ auth_code := some v, auth_error := none }, reqsAfter)
    ∧ run_auth_flow_listener (req :: reqsAfter) =
        some { result := .Success v, unconsumed := reqsAfter, serverClosed := true } := by
  have h1 := do_GET_code initState req v vs hpath hcode
  have h2 : authLoop initState (req :: reqsAfter) =
      some ({ auth_code := some v, auth_error := none }, reqsAfter) := by
    rw [authLoop_cons_waiting initState req reqsAfter rfl, h1]
    exact authLoop_not_waiting (⟨some v, none⟩ : ServerState) (by rfl) reqsAfter
  refine ⟨h1, h2, ?_⟩
  simp [run_auth_flow_listener, h2, resultOfState, truthy]

/-- Witness for C4 at the redirect query `code=abc123`. -/
theorem callback_code_success_witness :
    (urlparse_path_query "/callback?code=abc123").1 = "/callback"
    ∧ getParam (parse_qs (urlparse_path_query "/callback?code=abc123").2) "code" = some ["abc123"]
    ∧ (do_GET initState "/callback?code=abc123" =
        ({ auth_code := some "abc123", auth_error := none },
         { status := 200, contentType := some "text/html", body := successHtml })
      ∧ authLoop initState ["/callback?code=abc123"] =
          some ({ auth_code := some "abc123", auth_error := none }, [])
      ∧ run_auth_flow_listener ["/callback?code=abc123"] =
          some { result := .Success "abc123", unconsumed := [], serverClosed := true }) :=
  ⟨by decide, by decide, callback_code_success "/callback?code=abc123" "abc123" [] [] (by decide) (by decide)⟩

/-- C5: a request on /callback whose query carries an error parameter and no
code records Failure whose reason is the decoded error_description value when
present and otherwise the error value, is answered HTTP 400 with the HTML
error page, and the listener stops. -/
theorem callback_error_failure (req e : String) (es reqsAfter : List String)
    (hpath : (urlparse_path_query req).1 = "/callback")
    (hnocode : getParam (parse_qs (urlparse_path_query req).2) "code" = none)
    (herr : getParam (parse_qs (urlparse_path_query req).2) "error" = some (e :: es)) :
    ∃ reason,
      reason = ((getParam (parse_qs (urlparse_path_query req).2) "error_description").getD (e :: es)).headD ""
      ∧ do_GET initState req =
          ({ auth_code := none, auth_error := some reason },
           { status := 400, contentType := some "text/html", body := errorHtml reason })
      ∧ (getParam (parse_qs (urlparse_path_query req).2) "error_description" = none → reason = e)
      ∧ (∀ d ds, getParam (parse_qs (urlparse_path_query req).2) "error_description" = some (d :: ds) → reason = d)
      ∧ run_auth_flow_listener (req :: reqsAfter) =
          some { result := .Failure reason, unconsumed := reqsAfter, serverClosed := true } := by
  have h1 := do_GET_error initState req (e :: es) hpath hnocode herr
  set R := ((getParam (parse_qs (urlparse_path_query req).2) "error_description").getD (e :: es)).headD "" with hR
  have hne : R ≠ "" := by
    rcases hed : getParam (parse_qs (urlparse_path_query req).2) "error_description" with _ | l
    · rw [hR]
      simp only [hed, Option.getD_none, List.headD_cons]
      exact (getParam_parse_qs_good _ _ _ herr).2 e (List.mem_cons_self _ _)
    · obtain ⟨hl, hlv⟩ := getParam_parse_qs_good _ _ _ hed
      rcases l with _ | ⟨d, ds⟩
      · exact absurd rfl hl
      · rw [hR]
        simp only [hed, Option.getD_some, List.headD_cons]
        exact hlv d (List.mem_cons_self _ _)
  have htr : truthy (some R) = true := by simp [truthy, hne]
  have h2 : authLoop initState (req :: reqsAfter) =
      some ({ auth_code := none, auth_error := some R }, reqsAfter) := by
    rw [authLoop_cons_waiting initState req reqsAfter rfl, h1]
    exact authLoop_not_waiting (⟨none, some R⟩ : ServerState) (by rfl) reqsAfter
  refine ⟨R, rfl, h1, ?_, ?_, ?_⟩
  · intro hed; rw [hR]; simp [hed]
  · intro d ds hed; rw [hR]; simp [hed]
  · simp only [run_auth_flow_listener, h2, resultOfState, htr, if_true]
    simp

/-- Witness for C5 at the redirect query
`error=access_denied&error_description=User+denied+access`: the reason is
the plus-decoded description `User denied access`. -/
theorem callback_error_failure_witness :
    (urlparse_path_query "/callback?error=access_denied&error_description=User+denied+access").1 = "/callback"
    ∧ getParam (parse_qs (urlparse_path_query "/callback?error=access_denied&error_description=User+denied+access").2) "code" = none
    ∧ getParam (parse_qs (urlparse_path_query "/callback?error=access_denied&error_description=User+denied+access").2) "error" = some ["access_denied"]
    ∧ run_auth_flow_listener ["/callback?error=access_denied&error_description=User+denied+access"] =
        some { result := .Failure "User denied access", unconsumed := [], serverClosed := true }
    ∧ (∃ reason,
        reason = ((getParam (parse_qs (urlparse_path_query "/callback?error=access_denied&error_description=User+denied+access").2) "error_description").getD ("access_denied" :: [])).headD ""
        ∧ do_GET initState "/callback?error=access_denied&error_description=User+denied+access" =
            ({ auth_code := none, auth_error := some reason },
             { status := 400, contentType := some "text/html", body := errorHtml reason })
        ∧ (getParam (parse_qs (urlparse_path_query "/callback?error=access_denied&error_description=User+denied+access").2) "error_description" = none → reason = "access_denied")
        ∧ (∀ d ds, getParam (parse_qs (urlparse_path_query "/callback?error=access_denied&error_description=User+denied+access").2) "error_description" = some (d :: ds) → reason = d)
        ∧ run_auth_flow_listener ("/callback?error=access_denied&error_description=User+denied+access" :: []) =
            some { result := .Failure reason, unconsumed := [], serverClosed := true }) :=
  ⟨by decide, by decide, by decide, by decide,
   callback_error_failure "/callback?error=access_denied&error_description=User+denied+access"
     "access_denied" [] [] (by decide) (by decide) (by decide)⟩

/-- C6: a request off /callback is answered HTTP 404 and a /callback request
with neither code nor error is answered HTTP 400; in both cases no result is
recorded and the loop simply continues with the remaining requests. -/
theorem non_callback_requests_keep_waiting (req : String) (reqsAfter : List String)
    (h : (urlparse_path_query req).1 ≠ "/callback"
      ∨ (getParam (parse_qs (urlparse_path_query req).2) "code" = none
         ∧ getParam (parse_qs (urlparse_path_query req).2) "error" = none)) :
    (do_GET initState req).1 = initState
    ∧ ((urlparse_path_query req).1 ≠ "/callback" →
        (do_GET initState req).2 = { status := 404, contentType := none, body := "" })
    ∧ ((urlparse_path_query req).1 = "/callback" →
        getParam (parse_qs (urlparse_path_query req).2) "code" = none →
        getParam (parse_qs (urlparse_path_query req).2) "error" = none →
        (do_GET initState req).2 = { status := 400, contentType := none, body := "" })
    ∧ authLoop initState (req :: reqsAfter) = authLoop initState reqsAfter := by
  have hst : (do_GET initState req).1 = initState := by
    rcases h with h | ⟨hc, he⟩
    · rw [do_GET_other_path initState req h]
    · by_cases hp : (urlparse_path_query req).1 = "/callback"
      · rw [do_GET_no_code_no_error initState req hp hc he]
      · rw [do_GET_other_path initState req hp]
  refine ⟨hst, ?_, ?_, ?_⟩
  · intro hp; rw [do_GET_other_path initState req hp]
  · intro hp hc he; rw [do_GET_no_code_no_error initState req hp hc he]
  · rw [authLoop_cons_waiting initState req reqsAfter rfl, hst]

/-- Witness for C6 at a favicon probe, plus the evaluation showing that a
run made only of non-matching requests never terminates the flow. -/
theorem non_callback_requests_keep_waiting_witness :
    ((urlparse_path_query "/favicon.ico").1 ≠ "/callback"
      ∨ (getParam (parse_qs (urlparse_path_query "/favicon.ico").2) "code" = none
         ∧ getParam (parse_qs (urlparse_path_query "/favicon.ico").2) "error" = none))
    ∧ authLoop initState ["/favicon.ico", "/callback?state=xyz"] = none
    ∧ run_auth_flow_listener ["/favicon.ico", "/callback?state=xyz"] = none
    ∧ ((do_GET initState "/favicon.ico").1 = initState
      ∧ ((urlparse_path_query "/favicon.ico").1 ≠ "/callback" →
          (do_GET initState "/favicon.ico").2 = { status := 404, contentType := none, body := "" })
      ∧ ((urlparse_path_query "/favicon.ico").1 = "/callback" →
          getParam (parse_qs (urlparse_path_query "/favicon.ico").2) "code" = none →
          getParam (parse_qs (urlparse_path_query "/favicon.ico").2) "error" = none →
          (do_GET initState "/favicon.ico").2 = { status := 400, contentType := none, body := "" })
      ∧ authLoop initState ("/favicon.ico" :: ["/callback?state=xyz"]) = authLoop initState ["/callback?state=xyz"]) :=
  ⟨Or.inl (by decide), by decide, by decide,
   non_callback_requests_keep_waiting "/favicon.ico" ["/callback?state=xyz"] (Or.inl (by decide))⟩

/-- C9: when one /callback request carries both a code and an error
parameter, the code branch is taken: Success with the code, HTTP 200, and
the error parameter is ignored (no error is recorded). -/
theorem code_takes_precedence_over_error (req v e : String) (vs es reqsAfter : List String)
    (hpath : (urlparse_path_query req).1 = "/callback")
    (hcode : getParam (parse_qs (urlparse_path_query req).2) "code" = some (v :: vs))
    (_herr : getParam (parse_qs (urlparse_path_query req).2) "error" = some (e :: es)) :
    do_GET initState req =
      ({ auth_code := some v, auth_error := none },
       { status := 200, contentType := some "text/html", body := successHtml })
    ∧ (do_GET initState req).1.auth_error = none
    ∧ run_auth_flow_listener (req :: reqsAfter) =
        some { result := .Success v, unconsumed := reqsAfter, serverClosed := true } := by
  have h1 := do_GET_code initState req v vs hpath hcode
  have h2 : authLoop initState (req :: reqsAfter) =
      some ({ auth_code := some v, auth_error := none }, reqsAfter) := by
    rw [authLoop_cons_waiting initState req reqsAfter rfl, h1]
    exact authLoop_not_waiting (⟨some v, none⟩ : ServerState) (by rfl) reqsAfter
  refine ⟨h1, by rw [h1]; rfl, ?_⟩
  simp [run_auth_flow_listener, h2, resultOfState, truthy]

/-- Witness for C9 at the query `code=abc123&error=access_denied`. -/
theorem code_takes_precedence_over_error_witness :
    (urlparse_path_query "/callback?code=abc123&error=access_denied").1 = "/callback"
    ∧ getParam (parse_qs (urlparse_path_query "/callback?code=abc123&error=access_denied").2) "code" = some ["abc123"]
    ∧ getParam (parse_qs (urlparse_path_query "/callback?code=abc123&error=access_denied").2) "error" = some ["access_denied"]
    ∧ (do_GET initState "/callback?code=abc123&error=access_denied" =
        ({ auth_code := some "abc123", auth_error := none },
         { status := 200, contentType := some "text/html", body := successHtml })
      ∧ (do_GET initState "/callback?code=abc123&error=access_denied").1.auth_error = none
      ∧ run_auth_flow_listener ["/callback?code=abc123&error=access_denied"] =
          some { result := .Success "abc123", unconsumed := [], serverClosed := true }) :=
  ⟨by decide, by decide, by decide,
   code_takes_precedence_over_error "/callback?code=abc123&error=access_denied"
     "abc123" "access_denied" [] [] [] (by decide) (by decide) (by decide)⟩

set_option maxRecDepth 10000 in
/-- C2: for every client_id the authorization URL is the provider base plus
exactly the query parameters client_id, redirect_uri (the fixed localhost
callback), response_type=code, scope (the space-joined URL-encoded scope
set, with no duplicates and no omissions: decoding recovers the exact join
and splitting the join recovers exactly SCOPES), access_type=offline and
prompt=consent; the final conjunct checks the parsed query of a concrete
URL lists exactly those six parameters. -/
theorem auth_url_contains_exact_parameters :
    (∀ client_id, get_auth_url client_id =
      "https://accounts.google.com/o/oauth2/v2/auth?" ++
        urlencode
          [("client_id", client_id),
           ("redirect_uri", REDIRECT_URI),
           ("response_type", "code"),
           ("scope", String.intercalate " " SCOPES),
           ("access_type", "offline"),
           ("prompt", "consent")])
    ∧ REDIRECT_URI = "http://localhost:8089/callback"
    ∧ SCOPES.Nodup
    ∧ (splitAll ' ' (String.intercalate " " SCOPES).data).map String.mk = SCOPES
    ∧ String.mk (unquote_plus_chars (quote_plus (String.intercalate " " SCOPES)).data) =
        String.intercalate " " SCOPES
    ∧ parse_qs (String.mk ((splitOnFirstChar '?' (get_auth_url "client-123").data).2.getD [])) =
        [("client_id", ["client-123"]),
         ("redirect_uri", ["http://localhost:8089/callback"]),
         ("response_type", ["code"]),
         ("scope", [String.intercalate " " SCOPES]),
         ("access_type", ["offline"]),
         ("prompt", ["consent"])] :=
  ⟨fun _ => rfl, by decide, by decide, by decide, by decide, by decide⟩

/-- C3 counterexample: on HTTP 400 with body `{"error":"invalid_grant"}`,
the line printed to standard error is `Error: {"error":"invalid_grant"}` —
it contains the body but not the status code 400, contradicting the claim
that the status code is printed to standard error. -/
theorem exchange_error_status_not_printed :
    exchange_code_response { status := 400, body := "\x7b\"error\":\"invalid_grant\"\x7d" } =
      .exited "Error: \x7b\"error\":\"invalid_grant\"\x7d" 1
    ∧ listInfix "400".data "Error: \x7b\"error\":\"invalid_grant\"\x7d".data = false :=
  ⟨rfl, by decide⟩

/-- C3 as amended: on every non-2xx response the caught HTTPError carries
both the status code and the body, the body (but not the status code) is
printed to standard error prefixed with `Error: `, the process exits with
status 1, and no token set is produced. -/
theorem exchange_code_nonsuccess_exits (resp : HttpResponse)
    (h : ¬ (200 ≤ resp.status ∧ resp.status < 300)) :
    urlopen_result resp = .error { code := resp.status, body := resp.body }
    ∧ exchange_code_response resp = .exited ("Error: " ++ resp.body) 1
    ∧ ∀ j, exchange_code_response resp ≠ .ok j := by
  have h1 : urlopen_result resp = .error { code := resp.status, body := resp.body } := by
    simp [urlopen_result, h]
  have h2 : exchange_code_response resp = .exited ("Error: " ++ resp.body) 1 := by
    simp [exchange_code_response, token_post_handle, h1]
  exact ⟨h1, h2, fun j hj => TokenCallOutcome.noConfusion (h2.symm.trans hj)⟩

/-- Witness for the amended C3 at HTTP 400 with body `{"error":"invalid_grant"}`. -/
theorem exchange_code_nonsuccess_exits_witness :
    ¬ (200 ≤ 400 ∧ 400 < 300)
    ∧ (urlopen_result { status := 400, body := "\x7b\"error\":\"invalid_grant\"\x7d" } =
        .error { code := 400, body := "\x7b\"error\":\"invalid_grant\"\x7d" }
      ∧ exchange_code_response { status := 400, body := "\x7b\"error\":\"invalid_grant\"\x7d" } =
          .exited ("Error: " ++ "\x7b\"error\":\"invalid_grant\"\x7d") 1
      ∧ ∀ j, exchange_code_response { status := 400, body := "\x7b\"error\":\"invalid_grant\"\x7d" } ≠ .ok j) :=
  ⟨by decide, exchange_code_nonsuccess_exits _ (by decide)⟩

/-- C7: refresh builds a POST to the token endpoint carrying exactly the
form fields client_id, client_secret, refresh_token and
grant_type=refresh_token, and a 2xx answer with the given JSON body yields a
token set with access_token "X", no refresh_token, and expires_in 3600. -/
theorem refresh_sends_form_and_returns_tokens (cid cs rt : String) :
    refresh_access_token_request cid cs rt =
      { url := "https://oauth2.googleapis.com/token",
        formData := [("client_id", cid), ("client_secret", cs), ("refresh_token", rt), ("grant_type", "refresh_token")],
        contentType := "application/x-www-form-urlencoded",
        method := "POST" }
    ∧ refresh_access_token_response { status := 200, body := "\x7b\"access_token\":\"X\",\"expires_in\":3600,\"token_type\":\"Bearer\"\x7d" } =
        .ok (.obj [("access_token", .str "X"), ("expires_in", .num 3600), ("token_type", .str "Bearer")])
    ∧ tokenSetView (.obj [("access_token", .str "X"), ("expires_in", .num 3600), ("token_type", .str "Bearer")]) =
        some { access_token := some (.str "X"), refresh_token := none,
               expires_in := some (.num 3600), token_type := some (.str "Bearer") } :=
  ⟨rfl, rfl, rfl⟩

/-- C8: whenever a required credential resolves to nothing after flag and
environment fallback, the subcommand reports a usage error on standard error
and exits with status 1, and does not proceed to the network phase. -/
theorem missing_credential_usage_error (cmd : Command)
    (flagId flagSecret flagRefresh envId envSecret envRefresh : Option String)
    (h : resolveArg flagId envId = none
      ∨ resolveArg flagSecret envSecret = none
      ∨ ((cmd = .refresh ∨ cmd = .token) ∧ resolveArg flagRefresh envRefresh = none)) :
    ∃ msg, main_guard cmd flagId flagSecret flagRefresh envId envSecret envRefresh = .usageError msg 1
      ∧ ∀ c, main_guard cmd flagId flagSecret flagRefresh envId envSecret envRefresh ≠ .proceed c := by
  cases cmd with
  | login =>
    have hcond : (truthy (resolveArg flagId envId) && truthy (resolveArg flagSecret envSecret)) = false := by
      rcases h with h | h | ⟨hc, _⟩
      · simp [h, truthy]
      · simp [h, truthy]
      · rcases hc with hc | hc <;> simp at hc
    refine ⟨"Error: --client-id and --client-secret required", ?_, ?_⟩
    · simp [main_guard, hcond]
    · intro c hc
      simp [main_guard, hcond] at hc
  | refresh =>
    have hcond : (truthy (resolveArg flagId envId) && truthy (resolveArg flagSecret envSecret)
        && truthy (resolveArg flagRefresh envRefresh)) = false := by
      rcases h with h | h | ⟨_, h⟩ <;> simp [h, truthy]
    refine ⟨"Error: client-id, client-secret, and refresh-token required", ?_, ?_⟩
    · simp [main_guard, hcond]
    · intro c hc
      simp [main_guard, hcond] at hc
  | token =>
    have hcond : (truthy (resolveArg flagId envId) && truthy (resolveArg flagSecret envSecret)
        && truthy (resolveArg flagRefresh envRefresh)) = false := by
      rcases h with h | h | ⟨_, h⟩ <;> simp [h, truthy]
    refine ⟨"Error: client-id, client-secret, and refresh-token required", ?_, ?_⟩
    · simp [main_guard, hcond]
    · intro c hc
      simp [main_guard, hcond] at hc

/-- Witness for C8: `login` with neither flags nor environment variables. -/
theorem missing_credential_usage_error_witness :
    (resolveArg (none : Option String) (none : Option String) = none
      ∨ resolveArg (none : Option String) (none : Option String) = none
      ∨ ((Command.login = .refresh ∨ Command.login = .token)
         ∧ resolveArg (none : Option String) (none : Option String) = none))
    ∧ ∃ msg, main_guard .login none none none none none none = .usageError msg 1
        ∧ ∀ c, main_guard .login none none none none none none ≠ .proceed c :=
  ⟨Or.inl rfl, missing_credential_usage_error .login none none none none none none (Or.inl rfl)⟩

/-- C10: on a 2xx answer whose JSON object has no access_token member, the
token subcommand's unguarded `tokens["access_token"]` raises an uncaught
KeyError instead of producing a clean error message. -/
theorem token_missing_access_token_is_keyerror (resp : HttpResponse) (fields : List (String × Json))
    (h2xx : 200 ≤ resp.status ∧ resp.status < 300)
    (hjson : json_loads resp.body = some (.obj fields))
    (hmiss : lookupField fields "access_token" = none) :
    token_command_net resp = .uncaughtKeyError "access_token" := by
  unfold token_command_net refresh_access_token_response token_post_handle urlopen_result
  rw [if_pos h2xx]
  simp [hjson, hmiss]

/-- Witness for C10 at a 2xx response whose body is `{"expires_in":3600}`. -/
theorem token_missing_access_token_is_keyerror_witness :
    (200 ≤ 200 ∧ 200 < 300)
    ∧ json_loads "\x7b\"expires_in\":3600\x7d" = some (.obj [("expires_in", Json.num 3600)])
    ∧ lookupField [("expires_in", Json.num 3600)] "access_token" = none
    ∧ token_command_net { status := 200, body := "\x7b\"expires_in\":3600\x7d" } = .uncaughtKeyError "access_token" :=
  ⟨by decide, rfl, rfl, token_missing_access_token_is_keyerror _ _ (by decide) rfl rfl⟩

end GoogleAuth

